import Mathlib

/-!
Shallow embedding of the flight-price-data-project core
(src/main.py and src/web_scraper.py).

Python strings are Lean Strings; machine integers are Int (Python ints are
unbounded); Python datetime dates are modelled as day ordinals (Int), with
parsing and formatting implemented from the civil-calendar algorithm so that
strptime and strftime of the "%Y-%m-%d" format are executable; code that can
raise an exception returns Option or Except.
-/

namespace FlightTracker

/-! Python string and int primitives used by the source. -/

/-- ASCII digit test, modelling str.isdigit on the inputs that occur here. -/
def pyIsDigit (c : Char) : Bool :=
  '0' ≤ c && c ≤ '9'

/-- Numeric value of a list of decimal digit characters. -/
def natOfDigits (cs : List Char) : Nat :=
  cs.foldl (fun a c => a * 10 + (c.toNat - 48)) 0

/-- Whitespace characters stripped by str.strip and by int( ). -/
def pyIsSpace (c : Char) : Bool :=
  c = ' ' || c = '\t' || c = '\n' || c = '\r' || c = '\x0b' || c = '\x0c'

/-- Python str.strip with no argument: remove whitespace from both ends. -/
def pyStrip (s : String) : String :=
  String.mk (((s.data.dropWhile pyIsSpace).reverse.dropWhile pyIsSpace).reverse)

/-- If sep is a leading subsequence of l, return the remainder, else none. -/
def stripPre : List Char → List Char → Option (List Char)
  | [], l => some l
  | _ :: _, [] => none
  | s :: ss, c :: cs => if s = c then stripPre ss cs else none

/-- Fuel-driven splitter on a character list; with fuel at least the length
of the input it implements Python str.split(sep) for a nonempty sep. -/
def splitAux (sep : List Char) : Nat → List Char → List (List Char)
  | _, [] => [[]]
  | 0, l => [l]
  | fuel + 1, c :: cs =>
    match stripPre sep (c :: cs) with
    | some rest => [] :: splitAux sep fuel rest
    | none =>
      match splitAux sep fuel cs with
      | [] => [[c]]
      | h :: t => (c :: h) :: t

/-- Python str.split(sep) for a nonempty separator string. -/
def pySplit (s sep : String) : List String :=
  (splitAux sep.data s.data.length s.data).map String.mk

/-- Substring containment on character lists. -/
def containsSub (needle : List Char) : List Char → Bool
  | [] => needle.isEmpty
  | c :: rest => (stripPre needle (c :: rest)).isSome || containsSub needle rest

/-- Python substring test: sub in s. -/
def strContains (s sub : String) : Bool :=
  containsSub sub.data s.data

/-- Digit run of a list of characters, or none when empty or not all digits. -/
def digitsToNat (cs : List Char) : Option Nat :=
  if cs ≠ [] ∧ cs.all pyIsDigit then some (natOfDigits cs) else none

/-- Python int(s) on a string: strip whitespace, optional sign, decimal
digits; none models the ValueError raised otherwise. -/
def pyInt (s : String) : Option Int :=
  match (pyStrip s).data with
  | '-' :: rest => (digitsToNat rest).map (fun n => -(n : Int))
  | '+' :: rest => (digitsToNat rest).map (fun n => (n : Int))
  | rest => (digitsToNat rest).map (fun n => (n : Int))

/-- The join of the digit characters of s, as used by the price cleaning
expression join(filter(str.isdigit, price_text)). -/
def digitsOf (s : String) : String :=
  String.mk (s.data.filter pyIsDigit)

/-! Gregorian calendar model for datetime.strptime, strftime and timedelta. -/

/-- Gregorian leap-year rule. -/
def isLeap (y : Nat) : Bool :=
  y % 4 = 0 && (y % 100 ≠ 0 || y % 400 = 0)

/-- Number of days of month m in year y. -/
def daysInMonth (y m : Nat) : Nat :=
  if m = 2 then (if isLeap y then 29 else 28)
  else if m = 4 ∨ m = 6 ∨ m = 9 ∨ m = 11 then 30
  else 31

/-- Day ordinal (days since 1970-01-01) of the civil date y-m-d, for a year
of at least 1; standard civil-from-days algorithm. -/
def daysFromCivil (y m d : Nat) : Int :=
  let y2 := if m ≤ 2 then y - 1 else y
  let era := y2 / 400
  let yoe := y2 % 400
  let mp := if 2 < m then m - 3 else m + 9
  let doy := (153 * mp + 2) / 5 + (d - 1)
  let doe := yoe * 365 + yoe / 4 - yoe / 100 + doy
  (era * 146097 + doe : Int) - 719468

/-- Civil date (y, m, d) of a day ordinal; inverse of daysFromCivil on the
range produced by parsing, standard days-from-civil inverse algorithm. -/
def civilFromDays (z : Int) : Nat × Nat × Nat :=
  let z2 := z + 719468
  let era := (z2.ediv 146097).toNat
  let doe := (z2 - (era : Int) * 146097).toNat
  let yoe := (doe - doe / 1460 + doe / 36524 - doe / 146096) / 365
  let y := yoe + era * 400
  let doy := doe - (365 * yoe + yoe / 4 - yoe / 100)
  let mp := (5 * doy + 2) / 153
  let d := doy - (153 * mp + 2) / 5 + 1
  let m := if mp < 10 then mp + 3 else mp - 9
  (if m ≤ 2 then y + 1 else y, m, d)

/-- Zero-pad a number to two digits. -/
def pad2 (n : Nat) : String :=
  if n < 10 then "0" ++ toString n else toString n

/-- Zero-pad a number to four digits. -/
def pad4 (n : Nat) : String :=
  if n < 10 then "000" ++ toString n
  else if n < 100 then "00" ++ toString n
  else if n < 1000 then "0" ++ toString n
  else toString n

/-- strftime of a day ordinal with the format Y-m-d. -/
def fmtDate (z : Int) : String :=
  let c := civilFromDays z
  pad4 c.1 ++ "-" ++ pad2 c.2.1 ++ "-" ++ pad2 c.2.2

/-- datetime.strptime(s, Y-m-d format) as a day ordinal: four year digits,
one or two month and day digits, dash separated, full match, then the
datetime constructor validates month, day and a year of at least 1.
Returns none where Python raises ValueError. -/
def parseDate (s : String) : Option Int :=
  match pySplit s "-" with
  | [ys, ms, ds] =>
    let yc := ys.data
    let mc := ms.data
    let dc := ds.data
    if yc.length = 4 ∧ yc.all pyIsDigit
        ∧ 1 ≤ mc.length ∧ mc.length ≤ 2 ∧ mc.all pyIsDigit
        ∧ 1 ≤ dc.length ∧ dc.length ≤ 2 ∧ dc.all pyIsDigit then
      let y := natOfDigits yc
      let m := natOfDigits mc
      let d := natOfDigits dc
      if 1 ≤ y ∧ 1 ≤ m ∧ m ≤ 12 ∧ 1 ≤ d ∧ d ≤ daysInMonth y m then
        some (daysFromCivil y m d)
      else none
    else none
  | _ => none

/-! Date-combination generator (src/main.py, generate_date_combinations). -/

/-- Integers a, a+1, ..., a+n-1, the shape of both the departure-date while
loop and the Python range of stay lengths. -/
def intRangeAux : Nat → Int → List Int
  | 0, _ => []
  | n + 1, a => a :: intRangeAux n (a + 1)

/-- Integers from a inclusive to b exclusive, modelling range(a, b). -/
def intRange (a b : Int) : List Int :=
  intRangeAux (b - a).toNat a

/-- One yielded combination at the day-ordinal level: departure ordinal,
return ordinal, stay length in days. -/
structure FlightDatesOrd where
  dep : Int
  ret : Int
  stay : Int
deriving DecidableEq, Repr

/-- The TypedDict FlightDates of src/main.py: formatted departure and return
date strings plus the integer stay duration. -/
structure FlightDates where
  departure_date : String
  return_date : String
  stay_duration : Int
deriving DecidableEq, Repr

/-- The inner for loop over stay lengths for one departure date d: yield
the combination while the return date d + stay is at most the deadline,
and break at the first stay that overshoots it. -/
def scanStays (d endO : Int) : List Int → List FlightDatesOrd
  | [] => []
  | s :: rest =>
    if d + s ≤ endO then ⟨d, d + s, s⟩ :: scanStays d endO rest
    else []

/-- The outer while loop over departure dates, with fuel equal to the number
of departure days from the start date up to the latest possible one. -/
def genCoreAux : Nat → Int → Int → Int → Int → List FlightDatesOrd
  | 0, _, _, _, _ => []
  | n + 1, d, endO, minS, maxS =>
    scanStays d endO (intRange minS (maxS + 1))
      ++ genCoreAux n (d + 1) endO minS maxS

/-- The generator body of generate_date_combinations after date parsing:
departure dates run from the start ordinal while they are at most
end minus min stay; for each, stay lengths are scanned in increasing order
with an early break once the return date passes the deadline. -/
def genCore (startO endO minS maxS : Int) : List FlightDatesOrd :=
  genCoreAux (endO - minS - startO + 1).toNat startO endO minS maxS

/-- Formatting of one yielded combination by strftime, as in the yield
statement of generate_date_combinations. -/
def fmtFD (c : FlightDatesOrd) : FlightDates :=
  ⟨fmtDate c.dep, fmtDate c.ret, c.stay⟩

/-- The Python exceptions that the modelled code can raise. -/
inductive PyError where
  | valueError
deriving DecidableEq, Repr

instance {ε α : Type} [DecidableEq ε] [DecidableEq α] : DecidableEq (Except ε α) := fun x y =>
  match x, y with
  | .ok a, .ok b => decidable_of_iff (a = b) (by simp)
  | .error a, .error b => decidable_of_iff (a = b) (by simp)
  | .ok _, .error _ => isFalse (by simp)
  | .error _, .ok _ => isFalse (by simp)

/-- generate_date_combinations of src/main.py: parse both date strings with
strptime (ValueError on failure), then run the generator loops. The list is
the full finite sequence the Python generator yields. -/
def generate_date_combinations (earliest_departure latest_return : String)
    (min_stay_days max_stay_days : Int) : Except PyError (List FlightDates) :=
  match parseDate earliest_departure, parseDate latest_return with
  | some s, some t =>
    .ok ((genCore s t min_stay_days max_stay_days).map fmtFD)
  | _, _ => .error .valueError

/-- Modelled from the spec: the naive inner loop that scans every stay
length from min to max and filters out the pairs whose return date exceeds
the deadline, with no early break. Used only to compare against the
early-break implementation. -/
def genCoreNaiveAux : Nat → Int → Int → Int → Int → List FlightDatesOrd
  | 0, _, _, _, _ => []
  | n + 1, d, endO, minS, maxS =>
    (((intRange minS (maxS + 1)).filter (fun s => d + s ≤ endO)).map
        (fun s => (⟨d, d + s, s⟩ : FlightDatesOrd)))
      ++ genCoreNaiveAux n (d + 1) endO minS maxS

/-- Modelled from the spec: naive variant of the generator core. -/
def genCoreNaive (startO endO minS maxS : Int) : List FlightDatesOrd :=
  genCoreNaiveAux (endO - minS - startO + 1).toNat startO endO minS maxS

/-- Modelled from the spec: generate_date_combinations with the naive
filter-based inner loop in place of the early break. -/
def generate_date_combinations_naive (earliest_departure latest_return : String)
    (min_stay_days max_stay_days : Int) : Except PyError (List FlightDates) :=
  match parseDate earliest_departure, parseDate latest_return with
  | some s, some t =>
    .ok ((genCoreNaive s t min_stay_days max_stay_days).map fmtFD)
  | _, _ => .error .valueError

/-! Extraction loop of scrape_google_flights (src/web_scraper.py). -/

/-- One raw result node: each field holds the text of the corresponding
child element, or none when find_element raises for that selector. -/
structure RawNode where
  airlineText : Option String
  durationText : Option String
  priceText : Option String
  stopsText : Option String
deriving DecidableEq, Repr

/-- One flight offer dict as built by the extraction loop and consumed by
flight_data_filter. Option fields model keys that a dict may lack, so that
dict.get defaults are representable; the scraped_at wall-clock timestamp is
not modelled. -/
structure Flight where
  airline : String
  departure_date : String
  return_date : Option String
  price : Int
  duration : Option String
  stops : Option Int
deriving DecidableEq, Repr

/-- Per-node extraction of scrape_google_flights: read airline, duration and
price text, clean the price by keeping only digits (int raises on an empty
digit string), then read the stops text and derive stops: 0 when it contains
Nonstop, else the integer value of its first space-separated token. Returns
none when any step raises, which the loop catches with continue. -/
def extractNode (departure_date : String) (return_date : Option String)
    (n : RawNode) : Option Flight := do
  let airline ← n.airlineText
  let duration ← n.durationText
  let ptext ← n.priceText
  let price ← pyInt (digitsOf ptext)
  let stext ← n.stopsText
  let stops ←
    if strContains stext "Nonstop" then pure (0 : Int)
    else pyInt ((pySplit stext " ").headD "")
  pure ⟨airline, departure_date, return_date, price, some duration, some stops⟩

/-- The extraction for loop of scrape_google_flights: per node, append the
extracted offer, or skip the node when extraction raised. -/
def scrape_extract (departure_date : String) (return_date : Option String) :
    List RawNode → List Flight
  | [] => []
  | n :: rest =>
    match extractNode departure_date return_date n with
    | some f => f :: scrape_extract departure_date return_date rest
    | none => scrape_extract departure_date return_date rest

/-! Offer filter (src/web_scraper.py, flight_data_filter). -/

/-- datetime.time restricted to the fields the code sets: hour and minute. -/
structure Time where
  hour : Int
  minute : Int
deriving DecidableEq, Repr

/-- The datetime.time constructor: valid for hour 0..23 and minute 0..59,
ValueError (none) otherwise. -/
def mkTime (h m : Int) : Option Time :=
  if 0 ≤ h ∧ h ≤ 23 ∧ 0 ≤ m ∧ m ≤ 59 then some ⟨h, m⟩ else none

/-- Comparison a > b on datetime.time values, lexicographic on
(hour, minute). -/
def timeGt (a b : Time) : Bool :=
  b.hour < a.hour || (a.hour = b.hour && b.minute < a.minute)

/-- The duration-parsing block of flight_data_filter: when the text contains
h, hours is int of the first space-separated token and the text is replaced
by what follows the first occurrence of the hr-and-space separator (an
IndexError when absent); when the remaining text contains m, minutes is int
of its first space-separated token. Missing components default to 0.
Returns none where the block raises. -/
def parseDuration (s : String) : Option (Int × Int) := do
  let (hours, rest) ←
    if strContains s "h" then do
      let h ← pyInt (pyStrip ((pySplit s " ").headD ""))
      let r ← (pySplit s "hr ").get? 1
      pure (h, pyStrip r)
    else pure ((0 : Int), s)
  let minutes ←
    if strContains rest "m" then pyInt (pyStrip ((pySplit rest " ").headD ""))
    else pure (0 : Int)
  pure (hours, minutes)

/-- The max_stops check: pass when no bound is set; with a bound, drop when
stops exceeds it, and also drop when the stops key is missing, since
comparing the empty-string default with an int raises and the bare except
skips the flight. -/
def stopsOk (max_stops : Option Int) (f : Flight) : Bool :=
  match max_stops with
  | none => true
  | some m =>
    match f.stops with
    | none => false
    | some s => decide (s ≤ m)

/-- The max_duration check: pass when no bound is set; with a bound, parse
the duration text (empty-string default when the key is missing), build a
datetime.time from the parsed hours and minutes, and drop the flight when
either step raises or the total exceeds the bound. -/
def durOk (max_duration : Option Time) (f : Flight) : Bool :=
  match max_duration with
  | none => true
  | some md =>
    match parseDuration (f.duration.getD "") with
    | none => false
    | some (h, m) =>
      match mkTime h m with
      | none => false
      | some t => !timeGt t md

/-- Python list slicing l[:n]: for nonnegative n the first n elements, for
negative n all but the last -n elements (clamped at zero). -/
def pyTake {α : Type} (l : List α) (n : Int) : List α :=
  if 0 ≤ n then l.take n.toNat else l.take ((l.length : Int) + n).toNat

/-- flight_data_filter of src/web_scraper.py: keep the flights that pass the
max_stops and max_duration checks, then return the top_n slice when top_n
is set. -/
def flight_data_filter (flights_data : List Flight) (max_stops : Option Int)
    (max_duration : Option Time) (top_n : Option Int) : List Flight :=
  let filtered := flights_data.filter (fun f => stopsOk max_stops f && durOk max_duration f)
  match top_n with
  | some n => pyTake filtered n
  | none => filtered

/-! Orchestrator control flow (src/main.py, run_tracker). -/

/-- Control-flow model of run_tracker: the whole per-route body (search
lookup, combination generation, fetching, persistence) is abstracted as the
process argument; the single try block of run_tracker wraps the entire route
for loop, so the first route whose processing raises ends the loop and its
exception is caught and logged at run level. The result is the list of
routes processed and the caught error, if any; the function is total, so no
exception escapes run_tracker. -/
def run_tracker {ρ ε : Type} (process : ρ → Except ε Unit) :
    List ρ → List ρ × Option ε
  | [] => ([], none)
  | r :: rest =>
    match process r with
    | .ok _ =>
      let p := run_tracker process rest
      (r :: p.1, p.2)
    | .error e => ([], some e)

end FlightTracker

namespace FlightTracker

/-! Helper lemmas about the generator loops. -/

/-- Membership in the integer range list. -/
theorem mem_intRangeAux {x : Int} : ∀ (n : Nat) (a : Int),
    x ∈ intRangeAux n a ↔ a ≤ x ∧ x < a + n := by
  intro n
  induction n with
  | zero =>
    intro a
    simp [intRangeAux]
  | succ n ih =>
    intro a
    simp [intRangeAux, ih (a + 1)]
    omega

/-- Membership in the inner stay-length scan over a contiguous range of
stay lengths. -/
theorem mem_scanStays {c : FlightDatesOrd} {d t : Int} : ∀ (n : Nat) (a : Int),
    c ∈ scanStays d t (intRangeAux n a)
      ↔ ∃ s, a ≤ s ∧ s < a + n ∧ d + s ≤ t ∧ c = ⟨d, d + s, s⟩ := by
  intro n
  induction n with
  | zero =>
    intro a
    constructor
    · intro h
      exact absurd h (by simp [intRangeAux, scanStays])
    · rintro ⟨s, h1, h2, -, -⟩
      exact absurd h2 (by omega)
  | succ n ih =>
    intro a
    by_cases h : d + a ≤ t
    · rw [show intRangeAux (n + 1) a = a :: intRangeAux n (a + 1) from rfl]
      rw [show scanStays d t (a :: intRangeAux n (a + 1))
            = ⟨d, d + a, a⟩ :: scanStays d t (intRangeAux n (a + 1)) from by
          simp [scanStays, h]]
      rw [List.mem_cons, ih (a + 1)]
      constructor
      · rintro (rfl | ⟨s, h1, h2, h3, rfl⟩)
        · exact ⟨a, by omega, by omega, h, rfl⟩
        · exact ⟨s, by omega, by omega, h3, rfl⟩
      · rintro ⟨s, h1, h2, h3, rfl⟩
        by_cases hs : s = a
        · subst hs
          exact Or.inl rfl
        · exact Or.inr ⟨s, by omega, by omega, h3, rfl⟩
    · rw [show intRangeAux (n + 1) a = a :: intRangeAux n (a + 1) from rfl]
      rw [show scanStays d t (a :: intRangeAux n (a + 1)) = [] from by simp [scanStays, h]]
      constructor
      · intro hx
        exact absurd hx (by simp)
      · rintro ⟨s, h1, h2, h3, -⟩
        exact absurd h3 (by omega)

/-- Membership in the outer departure-date loop. -/
theorem mem_genCoreAux {c : FlightDatesOrd} {t minS maxS : Int} : ∀ (n : Nat) (d : Int),
    c ∈ genCoreAux n d t minS maxS
      ↔ ∃ d2, d ≤ d2 ∧ d2 < d + n ∧ c ∈ scanStays d2 t (intRange minS (maxS + 1)) := by
  intro n
  induction n with
  | zero =>
    intro d
    constructor
    · intro h
      exact absurd h (by simp [genCoreAux])
    · rintro ⟨d2, h1, h2, -⟩
      exact absurd h2 (by omega)
  | succ n ih =>
    intro d
    rw [show genCoreAux (n + 1) d t minS maxS
          = scanStays d t (intRange minS (maxS + 1)) ++ genCoreAux n (d + 1) t minS maxS from rfl]
    rw [List.mem_append, ih (d + 1)]
    constructor
    · rintro (h | ⟨d2, h1, h2, h3⟩)
      · exact ⟨d, by omega, by omega, h⟩
      · exact ⟨d2, by omega, by omega, h3⟩
    · rintro ⟨d2, h1, h2, h3⟩
      by_cases hd : d2 = d
      · subst hd
        exact Or.inl h3
      · exact Or.inr ⟨d2, by omega, by omega, h3⟩

/-- C1: for every valid input (parseable dates with earliest at most latest
and nonnegative min stay at most max stay), generate_date_combinations
returns without error the formatted generator core, whose combinations are
exactly the triples with departure at least the earliest date, stay between
the bounds, return equal to departure plus stay, and return at most the
latest date (soundness and completeness); and when the earliest departure is
later than latest return minus min stay the sequence is empty. -/
theorem generate_date_combinations_sound_complete
    (e l : String) (minS maxS s t : Int)
    (hpe : parseDate e = some s) (hpl : parseDate l = some t)
    (hel : s ≤ t) (h0 : 0 ≤ minS) (hmm : minS ≤ maxS) :
    generate_date_combinations e l minS maxS
      = .ok ((genCore s t minS maxS).map fmtFD)
    ∧ (∀ c : FlightDatesOrd, c ∈ genCore s t minS maxS ↔
        (s ≤ c.dep ∧ minS ≤ c.stay ∧ c.stay ≤ maxS
          ∧ c.ret = c.dep + c.stay ∧ c.ret ≤ t))
    ∧ (t - minS < s → genCore s t minS maxS = []) := by
  refine ⟨by simp [generate_date_combinations, hpe, hpl], ?_, ?_⟩
  · intro c
    rw [show genCore s t minS maxS
          = genCoreAux (t - minS - s + 1).toNat s t minS maxS from rfl]
    rw [mem_genCoreAux]
    constructor
    · rintro ⟨d2, h1, h2, hm⟩
      rw [show intRange minS (maxS + 1)
            = intRangeAux (maxS + 1 - minS).toNat minS from rfl] at hm
      rw [mem_scanStays] at hm
      obtain ⟨st, g1, g2, g3, rfl⟩ := hm
      exact ⟨h1, g1, show st ≤ maxS by omega, rfl, g3⟩
    · rintro ⟨b1, b2, b3, b4, b5⟩
      refine ⟨c.dep, b1, by omega, ?_⟩
      rw [show intRange minS (maxS + 1)
            = intRangeAux (maxS + 1 - minS).toNat minS from rfl]
      rw [mem_scanStays]
      refine ⟨c.stay, b2, by omega, by omega, ?_⟩
      obtain ⟨cd, cr, cs⟩ := c
      simp only at b4 ⊢
      rw [b4]
  · intro h
    rw [show genCore s t minS maxS
          = genCoreAux (t - minS - s + 1).toNat s t minS maxS from rfl]
    rw [show (t - minS - s + 1).toNat = 0 from by omega]
    rfl

/-- Witness for C1: at the concrete example input, the boundary combination
with departure ordinal 20454 (2026-01-01), stay 7 and return 20461 is
generated. -/
theorem generate_date_combinations_sound_complete_witness :
    (⟨20454, 20461, 7⟩ : FlightDatesOrd) ∈ genCore 20454 20463 7 8 :=
  ((generate_date_combinations_sound_complete "2026-01-01" "2026-01-10" 7 8 20454 20463
      (by decide) (by decide) (by decide) (by decide) (by decide)).2.1
    ⟨20454, 20461, 7⟩).mpr (by decide)

end FlightTracker

namespace FlightTracker

/-- C2 counterexample: on the example input the generator does not produce
the four claimed combinations; it produces five, the fifth having departure
date 2026-01-03 (its return 2026-01-10 equals the deadline, and the check is
inclusive). -/
theorem generate_date_combinations_example_cex :
    generate_date_combinations "2026-01-01" "2026-01-10" 7 8
      ≠ .ok [⟨"2026-01-01", "2026-01-08", 7⟩, ⟨"2026-01-01", "2026-01-09", 8⟩,
             ⟨"2026-01-02", "2026-01-09", 7⟩, ⟨"2026-01-02", "2026-01-10", 8⟩]
    ∧ generate_date_combinations "2026-01-01" "2026-01-10" 7 8
      = .ok [⟨"2026-01-01", "2026-01-08", 7⟩, ⟨"2026-01-01", "2026-01-09", 8⟩,
             ⟨"2026-01-02", "2026-01-09", 7⟩, ⟨"2026-01-02", "2026-01-10", 8⟩,
             ⟨"2026-01-03", "2026-01-10", 7⟩] := by
  decide

/-- C2 amended: on the example input the generator produces exactly the five
combinations below, in order; every departure date is one of 2026-01-01,
2026-01-02 and 2026-01-03, so no combination departs 2026-01-04 or later. -/
theorem generate_date_combinations_example_five :
    generate_date_combinations "2026-01-01" "2026-01-10" 7 8
      = .ok [⟨"2026-01-01", "2026-01-08", 7⟩, ⟨"2026-01-01", "2026-01-09", 8⟩,
             ⟨"2026-01-02", "2026-01-09", 7⟩, ⟨"2026-01-02", "2026-01-10", 8⟩,
             ⟨"2026-01-03", "2026-01-10", 7⟩]
    ∧ ∀ fd ∈ [(⟨"2026-01-01", "2026-01-08", 7⟩ : FlightDates),
              ⟨"2026-01-01", "2026-01-09", 8⟩, ⟨"2026-01-02", "2026-01-09", 7⟩,
              ⟨"2026-01-02", "2026-01-10", 8⟩, ⟨"2026-01-03", "2026-01-10", 7⟩],
        fd.departure_date = "2026-01-01" ∨ fd.departure_date = "2026-01-02"
          ∨ fd.departure_date = "2026-01-03" := by
  decide

/-- Route-processing stub for the run_tracker counterexample: route 1 raises,
every other route succeeds. -/
def procFailFirst : Nat → Except Unit Unit :=
  fun r => if r = 1 then .error () else .ok ()

/-- C3 counterexample: with two configured routes where processing the first
raises, run_tracker processes no further route, even though route 2 on its
own would succeed; the failure of one route aborts the rest of the batch. -/
theorem run_tracker_skips_rest_cex :
    run_tracker procFailFirst [1, 2] = ([], some ())
    ∧ procFailFirst 2 = .ok ()
    ∧ run_tracker procFailFirst [2] = ([2], none) := by
  decide

/-- C3 amended: the single try block of run_tracker wraps the whole route
loop, so after any prefix of successfully processed routes, the first route
whose processing raises ends the run: the exception is caught and logged at
run level (returned, never propagated) and the routes after the failing one
are not processed. -/
theorem run_tracker_first_error_stops {ρ ε : Type} (process : ρ → Except ε Unit)
    (pre : List ρ) (r : ρ) (post : List ρ) (e : ε)
    (hpre : ∀ x ∈ pre, process x = .ok ()) (hr : process r = .error e) :
    run_tracker process (pre ++ r :: post) = (pre, some e) := by
  induction pre with
  | nil =>
    simp [run_tracker, hr]
  | cons a pre ih =>
    have ha : process a = .ok () := hpre a (List.mem_cons_self a pre)
    have ih2 := ih (fun x hx => hpre x (List.mem_cons_of_mem a hx))
    simp [run_tracker, ha, ih2]

/-- Witness for the amended C3 at a concrete input: route 0 succeeds, route
1 raises, route 2 is skipped. -/
theorem run_tracker_first_error_stops_witness :
    run_tracker procFailFirst ([0] ++ 1 :: [2]) = ([0], some ()) :=
  run_tracker_first_error_stops procFailFirst [0] 1 [2] () (by decide) (by decide)

/-- Helper for C4: with min stay above max stay the range of stay lengths is
empty, so every iteration of the departure loop contributes nothing. -/
theorem genCoreAux_nil {t minS maxS : Int} (h : maxS < minS) :
    ∀ (n : Nat) (d : Int), genCoreAux n d t minS maxS = [] := by
  intro n
  induction n with
  | zero =>
    intro d
    rfl
  | succ n ih =>
    intro d
    rw [show genCoreAux (n + 1) d t minS maxS
          = scanStays d t (intRange minS (maxS + 1)) ++ genCoreAux n (d + 1) t minS maxS from rfl]
    rw [show intRange minS (maxS + 1) = intRangeAux (maxS + 1 - minS).toNat minS from rfl]
    rw [show (maxS + 1 - minS).toNat = 0 from by omega]
    rw [ih (d + 1)]
    rfl

/-- C4 counterexample: with min_stay_days = 5 above max_stay_days = 3 and
well-formed dates, generate_date_combinations does not fail at all (there is
no InvalidRangeError anywhere in the code): it returns the empty sequence. -/
theorem generate_date_combinations_no_range_error_cex :
    generate_date_combinations "2026-01-01" "2026-01-10" 5 3 = .ok []
    ∧ generate_date_combinations "2026-01-01" "2026-01-10" 5 3 ≠ .error .valueError := by
  decide

/-- C4 amended: when min_stay_days exceeds max_stay_days the generator
returns the empty sequence without error (the Python range of stay lengths
is empty), and when either date string is unparseable it raises ValueError
from strptime; no InvalidRangeError exists in the code. -/
theorem generate_date_combinations_error_behavior :
    (∀ (e l : String) (minS maxS s t : Int), parseDate e = some s →
        parseDate l = some t → maxS < minS →
        generate_date_combinations e l minS maxS = .ok [])
    ∧ (∀ (e l : String) (minS maxS : Int),
        parseDate e = none ∨ parseDate l = none →
        generate_date_combinations e l minS maxS = .error .valueError) := by
  constructor
  · intro e l minS maxS s t hpe hpl h
    simp only [generate_date_combinations, hpe, hpl]
    rw [show genCore s t minS maxS
          = genCoreAux (t - minS - s + 1).toNat s t minS maxS from rfl]
    rw [genCoreAux_nil h]
    rfl
  · intro e l minS maxS h
    rcases h with h | h
    · simp [generate_date_combinations, h]
    · cases hpe : parseDate e <;> simp [generate_date_combinations, hpe, h]

/-- Witness for the amended C4: a concrete inverted stay range yields the
empty sequence, and a concrete unparseable date yields ValueError. -/
theorem generate_date_combinations_error_behavior_witness :
    generate_date_combinations "2026-01-02" "2026-01-09" 5 3 = .ok []
    ∧ generate_date_combinations "bad" "2026-01-09" 5 3 = .error .valueError :=
  ⟨generate_date_combinations_error_behavior.1 "2026-01-02" "2026-01-09" 5 3 20455 20462
      (by decide) (by decide) (by decide),
   generate_date_combinations_error_behavior.2 "bad" "2026-01-09" 5 3 (Or.inl (by decide))⟩

end FlightTracker

namespace FlightTracker

/-- Concrete flight offer used in the filter counterexample and witnesses. -/
def flightA : Flight :=
  ⟨"A", "2026-01-01", none, 100, some "2 hr 0 min", some 0⟩

/-- Second concrete flight offer for the filter counterexample. -/
def flightB : Flight :=
  ⟨"B", "2026-01-01", none, 120, some "3 hr 0 min", some 1⟩

/-- C5 counterexample: with top_n = -1 (a Python slice that drops the last
element), filtering is not idempotent: applying the filter twice to two
offers drops one offer per pass. -/
theorem flight_data_filter_not_idempotent_cex :
    flight_data_filter
        (flight_data_filter [flightA, flightB] none none (some (-1)))
        none none (some (-1))
      ≠ flight_data_filter [flightA, flightB] none none (some (-1)) := by
  decide

/-- Helper for C5: the stop and duration filter is idempotent on lists. -/
theorem filter_self_idem {α : Type} (p : α → Bool) :
    ∀ l : List α, (l.filter p).filter p = l.filter p := by
  intro l
  induction l with
  | nil => rfl
  | cons a l ih =>
    by_cases h : p a <;> simp [List.filter_cons, h, ih]

/-- Helper for C5: every element of a prefix of an already filtered list
still passes the filter. -/
theorem filter_take_of_filter {α : Type} (p : α → Bool) (l : List α) (k : Nat) :
    ((l.filter p).take k).filter p = (l.filter p).take k := by
  apply List.filter_eq_self.mpr
  intro a ha
  exact List.of_mem_filter (List.take_subset k (l.filter p) ha)

/-- C5 amended: flight_data_filter is idempotent for every criteria
combination whose top_n is unset or nonnegative; a negative top_n (a Python
slice dropping elements from the end) breaks idempotence. -/
theorem flight_data_filter_idempotent_nonneg (flights : List Flight)
    (ms : Option Int) (md : Option Time) (tn : Option Int)
    (h : ∀ n, tn = some n → 0 ≤ n) :
    flight_data_filter (flight_data_filter flights ms md tn) ms md tn
      = flight_data_filter flights ms md tn := by
  cases tn with
  | none =>
    simp only [flight_data_filter]
    exact filter_self_idem _ flights
  | some n =>
    have hn : 0 ≤ n := h n rfl
    simp only [flight_data_filter, pyTake, if_pos hn]
    rw [filter_take_of_filter]
    rw [List.take_take]
    rw [min_self]

/-- Witness for the amended C5: idempotence at a concrete offer list with
top_n = 1. -/
theorem flight_data_filter_idempotent_nonneg_witness :
    flight_data_filter (flight_data_filter [flightA, flightB] none none (some 1))
        none none (some 1)
      = flight_data_filter [flightA, flightB] none none (some 1) :=
  flight_data_filter_idempotent_nonneg [flightA, flightB] none none (some 1)
    (fun n hn => by simp at hn; omega)

/-- C6: per-node extraction rules at concrete nodes: a price text of
"€ 1,234" yields price 1234; a node whose price text has no digits is
dropped; stops text containing Nonstop yields stops 0; stops text "1 stop"
yields stops 1. -/
theorem extractNode_parsing_rules :
    extractNode "2026-01-01" (some "2026-01-08")
        ⟨some "Lufthansa", some "2 hr 30 min", some "€ 1,234", some "Nonstop"⟩
      = some ⟨"Lufthansa", "2026-01-01", some "2026-01-08", 1234,
              some "2 hr 30 min", some 0⟩
    ∧ extractNode "2026-01-01" (some "2026-01-08")
        ⟨some "Lufthansa", some "2 hr 30 min", some "Price unavailable", some "Nonstop"⟩
      = none
    ∧ extractNode "2026-01-01" (some "2026-01-08")
        ⟨some "Austrian", some "3 hr 10 min", some "€ 567", some "1 stop"⟩
      = some ⟨"Austrian", "2026-01-01", some "2026-01-08", 567,
              some "3 hr 10 min", some 1⟩ := by
  decide

/-- C7: with no criteria set, flight_data_filter returns its input unchanged
in contents and order; and with any criteria, the output is a sublist of the
input, so filtering never reorders offers. -/
theorem flight_data_filter_identity_and_sublist :
    (∀ l : List Flight, flight_data_filter l none none none = l)
    ∧ (∀ (l : List Flight) (ms : Option Int) (md : Option Time) (tn : Option Int),
        List.Sublist (flight_data_filter l ms md tn) l) := by
  constructor
  · intro l
    simp [flight_data_filter, stopsOk, durOk]
  · intro l ms md tn
    have h1 : List.Sublist (l.filter (fun f => stopsOk ms f && durOk md f)) l :=
      List.filter_sublist l
    cases tn with
    | none => exact h1
    | some n =>
      refine List.Sublist.trans ?_ h1
      simp only [flight_data_filter, pyTake]
      split
      · exact List.take_sublist _ _
      · exact List.take_sublist _ _
end FlightTracker

namespace FlightTracker

/-- Helper for C8: because stay lengths are scanned in increasing order and
the deadline check is antitone in the stay length, the early break of the
inner loop computes exactly the filtered scan of all stay lengths. -/
theorem scanStays_eq_filter {d t : Int} : ∀ (n : Nat) (a : Int),
    scanStays d t (intRangeAux n a)
      = ((intRangeAux n a).filter (fun s => d + s ≤ t)).map
          (fun s => (⟨d, d + s, s⟩ : FlightDatesOrd)) := by
  intro n
  induction n with
  | zero =>
    intro a
    rfl
  | succ n ih =>
    intro a
    by_cases h : d + a ≤ t
    · simp [intRangeAux, scanStays, List.filter_cons, h, ih (a + 1)]
    · have hnil : (intRangeAux n (a + 1)).filter (fun s => decide (d + s ≤ t)) = [] := by
        apply List.filter_eq_nil_iff.mpr
        intro s hs
        have hb := (mem_intRangeAux n (a + 1)).mp hs
        simp only [decide_eq_true_eq]
        omega
      simp [intRangeAux, scanStays, List.filter_cons, h, hnil]

/-- Helper for C8: the outer loops of the early-break generator and of the
naive filtering variant agree. -/
theorem genCoreAux_eq_naive {t minS maxS : Int} : ∀ (n : Nat) (d : Int),
    genCoreAux n d t minS maxS = genCoreNaiveAux n d t minS maxS := by
  intro n
  induction n with
  | zero =>
    intro d
    rfl
  | succ n ih =>
    intro d
    rw [show genCoreAux (n + 1) d t minS maxS
          = scanStays d t (intRange minS (maxS + 1)) ++ genCoreAux n (d + 1) t minS maxS from rfl]
    rw [show genCoreNaiveAux (n + 1) d t minS maxS
          = (((intRange minS (maxS + 1)).filter (fun s => d + s ≤ t)).map
              (fun s => (⟨d, d + s, s⟩ : FlightDatesOrd)))
            ++ genCoreNaiveAux n (d + 1) t minS maxS from rfl]
    rw [show intRange minS (maxS + 1) = intRangeAux (maxS + 1 - minS).toNat minS from rfl]
    rw [scanStays_eq_filter, ih (d + 1)]

/-- C8: the early break on the first overshooting stay length is a pure
optimization: for every input the generator produces, element for element
and in the same order, exactly the sequence of the naive variant that scans
every stay length and filters out returns past the deadline. -/
theorem generate_date_combinations_eq_naive (e l : String) (minS maxS : Int) :
    generate_date_combinations e l minS maxS
      = generate_date_combinations_naive e l minS maxS := by
  unfold generate_date_combinations generate_date_combinations_naive
  cases hpe : parseDate e <;> cases hpl : parseDate l <;>
    simp [genCore, genCoreNaive, genCoreAux_eq_naive]

/-- C9: extraction maps nodes to offers preserving input order and contains
failure per node: around any node whose extraction raises, the outputs of
the nodes before and after it are still produced, in order, with the bad
node dropped; and a node whose extraction succeeds contributes exactly its
offer in position. -/
theorem scrape_extract_order_and_containment :
    (∀ (dep : String) (ret : Option String) (pre : List RawNode) (n : RawNode)
        (post : List RawNode),
        extractNode dep ret n = none →
        scrape_extract dep ret (pre ++ n :: post)
          = scrape_extract dep ret pre ++ scrape_extract dep ret post)
    ∧ (∀ (dep : String) (ret : Option String) (pre : List RawNode) (n : RawNode)
        (post : List RawNode) (f : Flight),
        extractNode dep ret n = some f →
        scrape_extract dep ret (pre ++ n :: post)
          = scrape_extract dep ret pre ++ f :: scrape_extract dep ret post) := by
  constructor
  · intro dep ret pre n post h
    induction pre with
    | nil => simp [scrape_extract, h]
    | cons a pre ih =>
      cases ha : extractNode dep ret a <;> simp [scrape_extract, ha, ih]
  · intro dep ret pre n post f h
    induction pre with
    | nil => simp [scrape_extract, h]
    | cons a pre ih =>
      cases ha : extractNode dep ret a <;> simp [scrape_extract, ha, ih]

/-- Concrete well-formed node used in the C9 witness. -/
def goodNode : RawNode :=
  ⟨some "LH", some "2 hr 30 min", some "€ 120", some "Nonstop"⟩

/-- Concrete malformed node (all selectors raise) used in the C9 witness. -/
def badNode : RawNode :=
  ⟨none, none, none, none⟩

/-- Second concrete well-formed node used in the C9 witness. -/
def goodNode2 : RawNode :=
  ⟨some "OS", some "4 hr 5 min", some "€ 99", some "1 stop"⟩

/-- Witness for C9: with a malformed node between two well-formed ones, the
extraction output is the concatenation of the outputs of the others. -/
theorem scrape_extract_order_and_containment_witness :
    scrape_extract "2026-01-01" none ([goodNode] ++ badNode :: [goodNode2])
      = scrape_extract "2026-01-01" none [goodNode]
        ++ scrape_extract "2026-01-01" none [goodNode2] :=
  scrape_extract_order_and_containment.1 "2026-01-01" none [goodNode] badNode [goodNode2]
    (by decide)

/-- C10: whenever max_duration is set, flight_data_filter drops every offer
whose duration text parses to a total of 24 hours or more, however large the
bound: the parsed hours and minutes are fed to the datetime.time constructor,
whose hour field cannot reach 24, so the construction raises and the bare
except skips the offer. -/
theorem flight_data_filter_drops_duration_ge_24h
    (flights : List Flight) (ms : Option Int) (md : Time) (tn : Option Int)
    (f : Flight) (h m : Int)
    (hparse : parseDuration (f.duration.getD "") = some (h, m))
    (hbig : 1440 ≤ h * 60 + m) :
    f ∉ flight_data_filter flights ms (some md) tn := by
  intro hmem
  have hmem2 : f ∈ flights.filter (fun g => stopsOk ms g && durOk (some md) g) := by
    simp only [flight_data_filter] at hmem
    cases tn with
    | none => exact hmem
    | some n =>
      simp only [pyTake] at hmem
      split at hmem
      · exact List.take_subset _ _ hmem
      · exact List.take_subset _ _ hmem
  have hp := (List.mem_filter.mp hmem2).2
  rw [Bool.and_eq_true] at hp
  have hdur := hp.2
  rw [show durOk (some md) f
        = (match parseDuration (f.duration.getD "") with
          | none => false
          | some (hh, mm) =>
            match mkTime hh mm with
            | none => false
            | some t0 => !timeGt t0 md) from rfl] at hdur
  rw [hparse] at hdur
  have hmk : mkTime h m = none := by
    simp only [mkTime, ite_eq_right_iff]
    intro hok
    exact absurd hbig (by omega)
  simp [hmk] at hdur

/-- Witness for C10: a concrete offer with duration text of 30 hours 15
minutes is dropped even with the largest representable bound 23:59. -/
theorem flight_data_filter_drops_duration_ge_24h_witness :
    (⟨"LH", "2026-01-01", none, 500, some "30 hr 15 min", some 0⟩ : Flight)
      ∉ flight_data_filter
          [⟨"LH", "2026-01-01", none, 500, some "30 hr 15 min", some 0⟩]
          none (some ⟨23, 59⟩) none :=
  flight_data_filter_drops_duration_ge_24h
    [⟨"LH", "2026-01-01", none, 500, some "30 hr 15 min", some 0⟩]
    none ⟨23, 59⟩ none
    ⟨"LH", "2026-01-01", none, 500, some "30 hr 15 min", some 0⟩ 30 15
    (by decide) (by decide)

end FlightTracker
